import Mathlib

/-!
Verification of the orchestration bridge in `pyblish_qml/host.py`.

The module keeps a process-wide mutable dictionary `_state` and exposes
`install`, `uninstall`, `show`, `publish`, `validate`,
`register_dispatch_wrapper` and `install_host` over it.  We embed that
state as an explicit structure `PState` and each entry point as a pure
state-passing function.  Behaviour of the external world (host imports,
the IPC proxy, GUI subprocess construction, headlessness) is supplied as
explicit parameters, matching exactly the failure modes the source
handles: `ImportError` in the host adapters, `IOError`/`KeyError` when
delegating to an existing proxy, any exception while constructing the
`Server`, and `OSError`/`KeyError` when killing the subprocess.
-/

namespace PyblishQml

/-- Hosts probed by `install_host` (host.py lines 255-260), one constructor
per `_install_*` helper, in no particular order here; the fixed probing
order is the list `hostOrder` below. -/
inductive Host
  | maya
  | houdini
  | nuke
  | nukeassist
  | hiero
  | nukestudio
deriving DecidableEq

/-- Outcome of running one `_install_*` helper.  `notThisHost` is an
`ImportError` (module absent, or the launch-flag checks at host.py lines
373-379, 402-403, 427-428, 451-452 raising `ImportError`); `failure` is
any other exception; `success` means the helper ran to completion.  The
detection checks in every helper precede all side effects, so a
non-success outcome leaves the state untouched. -/
inductive ProbeResult
  | notThisHost
  | success
  | failure
deriving DecidableEq

/-- The two exception classes caught when delegating to an existing proxy
(host.py lines 117, 177, 192): `except (IOError, KeyError)`. -/
inductive PFail
  | ioError
  | keyError
deriving DecidableEq

/-- Exceptions appearing in the dispatch-wrapper and registration paths. -/
inductive Exn
  | pyExn (n : Nat)
  | keyError
  | osError
  | typeError
deriving DecidableEq

/-- Result of `inspect.getargspec(wrapper)` (host.py line 23): the number
of named positional arguments, and whether `*args` / `**kwargs` are
present (`varargs is None` / `keywords is None` become `false`). -/
structure ArgSpec where
  args : Nat
  varargs : Bool
  keywords : Bool
deriving DecidableEq

/-- A user-supplied wrapper callable: an identity tag plus its argspec. -/
structure WrapperVal where
  wid : Nat
  spec : ArgSpec
deriving DecidableEq

/-- The value stored under `_state["dispatchWrapper"]`: either the
`_wrapper` closure over a user wrapper (host.py lines 29-39) or the
`threaded_wrapper` a host adapter registers. -/
inductive DW
  | userW (wid : Nat)
  | hostW (h : Host)
deriving DecidableEq

/-- `ipc.server.Server(service, targets=targets, modal=modal)`: identity
of the GUI subprocess plus its `modal` attribute (host.py line 146 and
the `server.modal = modal` write at line 109). -/
structure Server where
  sid : Nat
  modal : Bool
deriving DecidableEq

/-- `ipc.server.Proxy(server, headless=is_headless)` (host.py line 152). -/
structure Proxy where
  pid : Nat
  headless : Bool
deriving DecidableEq

/-- Callbacks registered against `pyblish.api`: the two installed by
`install_callbacks` (host.py lines 197-199) and the transient
`pyblishQmlShown` callback of `show` (host.py lines 138-139). -/
inductive CB
  | instanceToggled
  | pluginToggled
  | pyblishQmlShown
deriving DecidableEq

/-- Number of registrations of callback `c` in the pyblish registry. -/
def countCB : List CB → CB → Nat
  | [], _ => 0
  | x :: t, c => (if x = c then 1 else 0) + countCB t c

/-- `pyblish.api.deregister_callback`: removes the first matching
registration. -/
def eraseFirst : List CB → CB → List CB
  | [], _ => []
  | x :: t, c => if x = c then t else x :: eraseFirst t c

/-- The process-wide `_state` dictionary of `pyblish_qml`, plus the
pyblish callback registry and the settings labels the host adapters set.
`contextLabel`/`windowTitle` are `none` while still at their default
sentinel values; `adapters` records which `_install_*` helpers completed
(for the at-most-one-adapter property); `nextServerId` numbers the
servers created, so `nextServerId` grows exactly when a `Server` is
constructed. -/
structure PState where
  installed : Bool
  currentServer : Option Server
  currentProxy : Option Proxy
  dispatchWrapper : Option DW
  callbacks : List CB
  contextLabel : Option Host
  windowTitle : Option Host
  adapters : List Host
  nextServerId : Nat
deriving DecidableEq

/-- Process start: `_state` empty, nothing registered. -/
def initialState : PState :=
  ⟨false, none, none, none, [], none, none, [], 0⟩

/-- Translation of `register_dispatch_wrapper` (host.py lines 15-39):
`inspect.getargspec` must report exactly one named argument, a `*args`
and a `**kwargs`, else `TypeError("Wrapper signature mismatch")` is
raised and nothing is stored; otherwise the `_wrapper` closure is stored
under `_state["dispatchWrapper"]`. -/
def register_dispatch_wrapper (w : WrapperVal) (st : PState) :
    PState × Option Exn :=
  if w.spec.args != 1 || !w.spec.varargs || !w.spec.keywords then
    (st, some Exn.typeError)
  else
    ({st with dispatchWrapper := some (DW.userW w.wid)}, none)

/-- One invocation of the installed `_wrapper` closure (host.py lines
29-37).  `inner` is the outcome of `wrapper(func, *args, **kwargs)`.  On
an exception the closure runs `_state["currentProxy"].kill()`: if no
proxy is registered the dictionary lookup raises `KeyError` from inside
the handler (no kill attempted, nothing printed); if the subprocess is
already dead the kill raises `OSError` (`killRaises`); only when the
kill returns does `traceback.print_exc()` run and `raise e` re-raise the
original exception.  The closure never mutates `_state`. -/
structure WrapRun where
  out : Option Exn
  value : Option Nat
  killAttempts : Nat
  printedTraceback : Bool
  post : PState
deriving DecidableEq

/-- Run the `_wrapper` closure: `inner = Sum.inl v` models a normal
return of `v`, `inner = Sum.inr e` models the wrapped call raising `e`. -/
def run_wrapper (st : PState) (inner : Sum Nat Exn) (killRaises : Bool) :
    WrapRun :=
  match inner with
  | Sum.inl v => ⟨none, some v, 0, false, st⟩
  | Sum.inr e =>
    match st.currentProxy with
    | none => ⟨some Exn.keyError, none, 0, false, st⟩
    | some _ =>
      if killRaises then ⟨some Exn.osError, none, 1, false, st⟩
      else ⟨some e, none, 1, true, st⟩

/-- The fixed probing order of `install_host` (host.py lines 255-260). -/
def hostOrder : List Host :=
  [Host.maya, Host.houdini, Host.nuke, Host.nukeassist,
   Host.hiero, Host.nukestudio]

/-- Side effects of one successful `_install_*` helper: register its
`threaded_wrapper` via `register_dispatch_wrapper` (a conforming
`(func, *args, **kwargs)` signature), and set the context label and
window title only if still at their defaults (host.py e.g. lines
342-345). -/
def applyInstall (h : Host) (st : PState) : PState :=
  let st1 := {st with
    dispatchWrapper := some (DW.hostW h),
    adapters := st.adapters ++ [h]}
  let st2 := if st1.contextLabel = none
    then {st1 with contextLabel := some h} else st1
  if st2.windowTitle = none
    then {st2 with windowTitle := some h} else st2

/-- Outcome of `install_host`: ran to completion (with the adapter that
won, if any), or an exception other than `ImportError` propagated. -/
inductive HostOut
  | done (h : Option Host)
  | raised
deriving DecidableEq

/-- The loop body of `install_host` (host.py lines 255-266): try each
installer in order; `except ImportError: pass` moves on; `else: break`
stops at the first success; any other exception propagates. -/
def installHostAux (probe : Host → ProbeResult) :
    List Host → PState → PState × HostOut
  | [], st => (st, HostOut.done none)
  | h :: rest, st =>
    match probe h with
    | ProbeResult.notThisHost => installHostAux probe rest st
    | ProbeResult.failure => (st, HostOut.raised)
    | ProbeResult.success => (applyInstall h st, HostOut.done (some h))

/-- Translation of `install_host` (host.py lines 247-266). -/
def install_host (probe : Host → ProbeResult) (st : PState) :
    PState × HostOut :=
  installHostAux probe hostOrder st

/-- First host in the list whose probe is not an `ImportError` miss,
together with its outcome. -/
def firstDetected (probe : Host → ProbeResult) :
    List Host → Option (Host × ProbeResult)
  | [] => none
  | h :: rest =>
    match probe h with
    | ProbeResult.notThisHost => firstDetected probe rest
    | r => some (h, r)

/-- Translation of `install_callbacks` (host.py lines 197-199). -/
def install_callbacks (st : PState) : PState :=
  {st with callbacks := st.callbacks ++ [CB.instanceToggled, CB.pluginToggled]}

/-- Translation of `uninstall_callbacks` (host.py lines 202-204). -/
def uninstall_callbacks (st : PState) : PState :=
  {st with callbacks :=
    eraseFirst (eraseFirst st.callbacks CB.instanceToggled) CB.pluginToggled}

/-- Translation of `uninstall` (host.py lines 73-76): deregisters the two
callbacks and prints; it does not clear `installed` or the registry. -/
def uninstall (st : PState) : PState :=
  uninstall_callbacks st

/-- Translation of `install` (host.py lines 54-70): if already installed,
uninstall first; then register callbacks, run the host adapter chain, and
set the installed flag.  The returned flag is `false` when `install_host`
propagated an exception, in which case the flag assignment at line 70 is
never reached and the exception propagates with the state as mutated so
far. -/
def install (probe : Host → ProbeResult) (st : PState) : PState × Bool :=
  let st1 := if st.installed then uninstall st else st
  let st2 := install_callbacks st1
  let r := install_host probe st2
  match r.2 with
  | HostOut.raised => (r.1, false)
  | HostOut.done _ => ({r.1 with installed := true}, true)

/-- Per-call behaviour of the external world during `show`:
`probe` drives the adapter chain if auto-install runs; `proxyFails` is
whether delegation to an already-registered proxy raises (`none` means
`proxy.update`/`proxy.show` succeed); `constructOk` is whether
`ipc.service.Service()` / `ipc.server.Server(...)` construction succeeds;
`headless` is the result of `_is_headless()`. -/
structure CallEnv where
  probe : Host → ProbeResult
  proxyFails : Option PFail
  constructOk : Bool
  headless : Bool

/-- Observable outcome of one `show` call: post state, returned server
(`none` when `show` returned `None` via `return on_shown()`), whether an
exception propagated out of the auto-install step, whether the `on_shown`
completion callback was invoked by the construction-failure path, and
whether `traceback.print_exc()` ran there (host.py lines 147-150). -/
structure ShowRes where
  post : PState
  ret : Option Server
  raised : Bool
  shownCalled : Bool
  printedConstructError : Bool
deriving DecidableEq

/-- `on_shown` (host.py lines 128-142): in non-headless mode it closes
the splash and deregisters the `pyblishQmlShown` callback; in headless
mode it is a no-op. -/
def on_shown (headless : Bool) (st : PState) : PState :=
  if headless then st
  else {st with callbacks := eraseFirst st.callbacks CB.pyblishQmlShown}

/-- The tail of `show` after the existing-server branch (host.py lines
121-164): register the splash `pyblishQmlShown` callback when not
headless; construct `Service`/`Server` — on any exception print the
traceback and `return on_shown()`; otherwise build the `Proxy`, show it,
store server and proxy in `_state`, and block in `server.listen()` until
the session ends, finally returning the server. -/
def createNew (env : CallEnv) (modal : Bool) (st0 : PState) : ShowRes :=
  let st1 := if env.headless then st0
    else {st0 with callbacks := st0.callbacks ++ [CB.pyblishQmlShown]}
  if env.constructOk then
    let sid := st1.nextServerId
    let server : Server := ⟨sid, modal⟩
    let proxy : Proxy := ⟨sid, env.headless⟩
    let st2 := {st1 with
      currentServer := some server,
      currentProxy := some proxy,
      nextServerId := sid + 1}
    ⟨st2, some server, false, false, false⟩
  else
    ⟨on_shown env.headless st1, none, false, true, true⟩

/-- The body of `show` from line 106 on, after the auto-install step:
with a registered server, set `server.modal = modal`, then try
`proxy.update(server)` / `proxy.show(settings)` — delegation succeeds
exactly when `_state["currentProxy"]` is present and the proxy calls do
not raise (`env.proxyFails = none`); otherwise the `IOError`/`KeyError`
is caught, `currentServer` is popped, and control falls through to
construct a fresh session like the no-server case. -/
def showCore (env : CallEnv) (modal : Bool) (st1 : PState) : ShowRes :=
  match st1.currentServer with
  | none => createNew env modal st1
  | some s0 =>
    let s := {s0 with modal := modal}
    let st2 := {st1 with currentServer := some s}
    if st2.currentProxy.isSome && env.proxyFails.isNone then
      ⟨st2, some s, false, false, false⟩
    else
      createNew env modal {st2 with currentServer := none}

/-- Translation of `show` (host.py lines 90-164); named `show'` because
`show` is a Lean keyword.  Auto-installs when not installed; an
exception propagating out of `install` aborts the call
(`raised := true`) with the state as mutated so far. -/
def show' (env : CallEnv) (modal : Bool) (st0 : PState) : ShowRes :=
  if st0.installed then showCore env modal st0
  else
    let inst := install env.probe st0
    if inst.2 = false then ⟨inst.1, none, true, false, false⟩
    else showCore env modal inst.1

/-- Translation of `publish` (host.py lines 167-179): nothing happens
without a registered server; otherwise `proxy.update`/`proxy.publish`,
and on `IOError`/`KeyError` (including a missing `currentProxy` key) pop
`currentServer`.  Both branches return normally: these are the only
failure modes of the delegation modelled, and both are caught. -/
def publish (pf : Option PFail) (st : PState) : PState :=
  match st.currentServer with
  | none => st
  | some _ =>
    if st.currentProxy.isSome && pf.isNone then st
    else {st with currentServer := none}

/-- Translation of `validate` (host.py lines 182-194), same structure as
`publish` with `proxy.validate` in place of `proxy.publish`. -/
def validate (pf : Option PFail) (st : PState) : PState :=
  match st.currentServer with
  | none => st
  | some _ =>
    if st.currentProxy.isSome && pf.isNone then st
    else {st with currentServer := none}

/-- One operation on the process-wide state, with its environment. -/
inductive Op
  | opInstall (probe : Host → ProbeResult)
  | opUninstall
  | opShow (env : CallEnv) (modal : Bool)
  | opPublish (pf : Option PFail)
  | opValidate (pf : Option PFail)

/-- Post-state of one operation (the state at the point an exception
propagates, for the raising cases). -/
def step (op : Op) (st : PState) : PState :=
  match op with
  | Op.opInstall probe => (install probe st).1
  | Op.opUninstall => uninstall st
  | Op.opShow env modal => (show' env modal st).post
  | Op.opPublish pf => publish pf st
  | Op.opValidate pf => validate pf st

/-- Run a sequence of operations from a state. -/
def run (ops : List Op) (st : PState) : PState :=
  ops.foldl (fun s op => step op s) st

/-- The invariant that does hold of the registry: a registered server
always has a registered proxy alongside it (the converse fails, because
stale-session recovery pops only `currentServer`). -/
def srvInv (st : PState) : Prop :=
  st.currentServer.isSome = true → st.currentProxy.isSome = true

instance (st : PState) : Decidable (srvInv st) := by
  unfold srvInv
  infer_instance

/-- Helper: a successful `_install_*` helper never touches the installed
flag, the server/proxy registry, the callback registry or the server
counter; it only sets the dispatch wrapper, the adapter record and the
labels. -/
theorem applyInstall_proj (h : Host) (st : PState) :
    (applyInstall h st).installed = st.installed ∧
    (applyInstall h st).currentServer = st.currentServer ∧
    (applyInstall h st).currentProxy = st.currentProxy ∧
    (applyInstall h st).callbacks = st.callbacks ∧
    (applyInstall h st).nextServerId = st.nextServerId := by
  unfold applyInstall
  dsimp only
  split_ifs <;> simp

/-- Helper: the adapter-chain loop never touches the installed flag, the
server/proxy registry, the callback registry or the server counter. -/
theorem installHostAux_proj (probe : Host → ProbeResult) (l : List Host)
    (st : PState) :
    (installHostAux probe l st).1.installed = st.installed ∧
    (installHostAux probe l st).1.currentServer = st.currentServer ∧
    (installHostAux probe l st).1.currentProxy = st.currentProxy ∧
    (installHostAux probe l st).1.callbacks = st.callbacks ∧
    (installHostAux probe l st).1.nextServerId = st.nextServerId := by
  induction l generalizing st with
  | nil => exact ⟨rfl, rfl, rfl, rfl, rfl⟩
  | cons h t ih =>
    simp only [installHostAux]
    cases hp : probe h
    · exact ih st
    · exact applyInstall_proj h st
    · exact ⟨rfl, rfl, rfl, rfl, rfl⟩

/-- Helper: `install` never touches the server/proxy registry or the
server counter. -/
theorem install_proj (probe : Host → ProbeResult) (st : PState) :
    (install probe st).1.currentServer = st.currentServer ∧
    (install probe st).1.currentProxy = st.currentProxy ∧
    (install probe st).1.nextServerId = st.nextServerId := by
  unfold install install_host
  dsimp only
  have hpre :
      (install_callbacks (if st.installed then uninstall st else st)).currentServer
        = st.currentServer ∧
      (install_callbacks (if st.installed then uninstall st else st)).currentProxy
        = st.currentProxy ∧
      (install_callbacks (if st.installed then uninstall st else st)).nextServerId
        = st.nextServerId := by
    cases hi : st.installed <;> exact ⟨rfl, rfl, rfl⟩
  obtain ⟨p1, p2, p3⟩ := hpre
  obtain ⟨-, h2, h3, -, h5⟩ := installHostAux_proj probe hostOrder
    (install_callbacks (if st.installed then uninstall st else st))
  cases ho : (installHostAux probe hostOrder
      (install_callbacks (if st.installed then uninstall st else st))).2 with
  | done oh =>
    simp only [ho]
    exact ⟨h2.trans p1, h3.trans p2, h5.trans p3⟩
  | raised =>
    simp only [ho]
    exact ⟨h2.trans p1, h3.trans p2, h5.trans p3⟩

/-- Helper: `createNew` preserves the one-sided registry invariant. -/
theorem createNew_srvInv (env : CallEnv) (modal : Bool) (st : PState)
    (h : srvInv st) : srvInv (createNew env modal st).post := by
  unfold createNew on_shown
  dsimp only
  cases hh : env.headless <;> cases hc : env.constructOk <;>
    simp only [hh, hc, Bool.false_eq_true, Bool.true_eq_false, if_false,
      if_true, ite_true, ite_false] <;>
    first
      | exact h
      | (intro _; rfl)

/-- Helper: the post-install body of `show` preserves the one-sided
registry invariant. -/
theorem showCore_srvInv (env : CallEnv) (modal : Bool) (st : PState)
    (h : srvInv st) : srvInv (showCore env modal st).post := by
  unfold showCore
  cases hs : st.currentServer with
  | none => exact createNew_srvInv env modal st h
  | some s0 =>
    dsimp only
    by_cases hc :
        (({st with currentServer := some {s0 with modal := modal}}).currentProxy.isSome
          && env.proxyFails.isNone) = true
    · rw [if_pos hc]
      intro _
      simp only [Bool.and_eq_true] at hc
      exact hc.1
    · rw [if_neg hc]
      apply createNew_srvInv
      intro hx
      simp at hx

/-- Helper: every operation preserves the one-sided registry invariant. -/
theorem step_srvInv (op : Op) (st : PState) (h : srvInv st) :
    srvInv (step op st) := by
  cases op with
  | opInstall probe =>
    obtain ⟨h1, h2, -⟩ := install_proj probe st
    unfold step srvInv
    rw [h1, h2]
    exact h
  | opUninstall => exact h
  | opShow env modal =>
    unfold step show'
    dsimp only
    by_cases hi : st.installed = true
    · rw [if_pos hi]
      exact showCore_srvInv env modal st h
    · rw [if_neg hi]
      obtain ⟨h1, h2, -⟩ := install_proj env.probe st
      by_cases hf : ((install env.probe st).2 = false)
      · rw [if_pos hf]
        unfold srvInv
        rw [h1, h2]
        exact h
      · rw [if_neg hf]
        apply showCore_srvInv
        unfold srvInv
        rw [h1, h2]
        exact h
  | opPublish pf =>
    unfold step publish
    cases hs : st.currentServer with
    | none => exact h
    | some s =>
      dsimp only
      by_cases hc : (st.currentProxy.isSome && pf.isNone) = true
      · rw [if_pos hc]
        intro _
        simp only [Bool.and_eq_true] at hc
        exact hc.1
      · rw [if_neg hc]
        intro hx
        simp at hx
  | opValidate pf =>
    unfold step validate
    cases hs : st.currentServer with
    | none => exact h
    | some s =>
      dsimp only
      by_cases hc : (st.currentProxy.isSome && pf.isNone) = true
      · rw [if_pos hc]
        intro _
        simp only [Bool.and_eq_true] at hc
        exact hc.1
      · rw [if_neg hc]
        intro hx
        simp at hx

/-- Helper: the one-sided registry invariant is preserved along any run. -/
theorem run_srvInv (ops : List Op) (st : PState) (h : srvInv st) :
    srvInv (run ops st) := by
  induction ops generalizing st with
  | nil => exact h
  | cons op t ih => exact ih (step op st) (step_srvInv op st h)

/-- Claim C2, counterexample.  From the initial state: `show` (all host
probes miss, headless, construction succeeds) registers a server and a
proxy; a subsequent `publish` whose delegation raises `IOError` pops
only `currentServer` (host.py line 179), leaving `currentProxy`
registered.  The claimed both-set-or-both-absent invariant is violated:
the server is absent while the proxy is still present. -/
theorem c2_counterexample :
    (run [Op.opShow ⟨fun _ => ProbeResult.notThisHost, none, true, true⟩ true,
          Op.opPublish (some PFail.ioError)] initialState).currentServer
      = none ∧
    (run [Op.opShow ⟨fun _ => ProbeResult.notThisHost, none, true, true⟩ true,
          Op.opPublish (some PFail.ioError)] initialState).currentProxy
      ≠ none := by
  decide

/-- Claim C2, amended: along every sequence of operations from the
initial state, a registered `currentServer` implies a registered
`currentProxy`; the converse direction fails because stale-session
recovery pops only the server entry. -/
theorem c2_server_implies_proxy (ops : List Op) :
    srvInv (run ops initialState) :=
  run_srvInv ops initialState (by decide)

/-- Claim C2, witness: after one successful `show` the server is
registered, and the amended invariant yields a registered proxy. -/
theorem c2_server_implies_proxy_witness :
    (run [Op.opShow ⟨fun _ => ProbeResult.notThisHost, none, true, true⟩ true]
      initialState).currentProxy.isSome = true :=
  c2_server_implies_proxy
    [Op.opShow ⟨fun _ => ProbeResult.notThisHost, none, true, true⟩ true]
    (by decide)

/-- Claim C1, counterexample.  After a successful
`register_dispatch_wrapper`, with a proxy registered and the wrapped
call raising `pyExn 7`, a kill whose `Popen.kill` raises `OSError`
(subprocess already dead) makes the `_wrapper` closure propagate the
`OSError` instead of re-raising the original exception: the kill error
is not swallowed.  And with no proxy registered at all, the
`_state["currentProxy"]` lookup raises `KeyError` before any kill, so no
kill is attempted. -/
theorem c1_counterexample :
    (register_dispatch_wrapper ⟨5, ⟨1, true, true⟩⟩
      {initialState with currentProxy := some ⟨0, true⟩}).2 = none ∧
    (run_wrapper
      (register_dispatch_wrapper ⟨5, ⟨1, true, true⟩⟩
        {initialState with currentProxy := some ⟨0, true⟩}).1
      (Sum.inr (Exn.pyExn 7)) true).killAttempts = 1 ∧
    (run_wrapper
      (register_dispatch_wrapper ⟨5, ⟨1, true, true⟩⟩
        {initialState with currentProxy := some ⟨0, true⟩}).1
      (Sum.inr (Exn.pyExn 7)) true).out ≠ some (Exn.pyExn 7) ∧
    (run_wrapper
      (register_dispatch_wrapper ⟨5, ⟨1, true, true⟩⟩ initialState).1
      (Sum.inr (Exn.pyExn 7)) false).killAttempts = 0 := by
  decide

/-- Claim C1, amended: after a successful `register_dispatch_wrapper`,
when the wrapped call raises, the `_wrapper` closure attempts a kill
exactly once provided a proxy is registered; if the kill returns
normally the traceback is printed and the original exception is
re-raised; if the kill raises (already-dead subprocess) the `OSError`
propagates in place of the original; if no proxy is registered the
`KeyError` from the registry lookup propagates and no kill is attempted.
In every case the wrapper remains registered and the state is
unchanged. -/
theorem c1_wrapper_exception (st stR : PState) (w : WrapperVal) (e : Exn)
    (killRaises : Bool)
    (hreg : register_dispatch_wrapper w st = (stR, none)) :
    (run_wrapper stR (Sum.inr e) killRaises).post = stR ∧
    stR.dispatchWrapper = some (DW.userW w.wid) ∧
    (stR.currentProxy.isSome = true →
      (run_wrapper stR (Sum.inr e) killRaises).killAttempts = 1) ∧
    (stR.currentProxy.isSome = true → killRaises = false →
      (run_wrapper stR (Sum.inr e) killRaises).out = some e ∧
      (run_wrapper stR (Sum.inr e) killRaises).printedTraceback = true) ∧
    (stR.currentProxy.isSome = true → killRaises = true →
      (run_wrapper stR (Sum.inr e) killRaises).out = some Exn.osError) ∧
    (stR.currentProxy = none →
      (run_wrapper stR (Sum.inr e) killRaises).out = some Exn.keyError ∧
      (run_wrapper stR (Sum.inr e) killRaises).killAttempts = 0) := by
  unfold register_dispatch_wrapper at hreg
  split at hreg
  · simp at hreg
  · obtain ⟨h1, -⟩ := Prod.mk.injEq .. ▸ hreg
    subst h1
    cases hp : st.currentProxy with
    | none =>
      cases killRaises <;> simp [run_wrapper, hp]
    | some p =>
      cases killRaises <;> simp [run_wrapper, hp]

/-- Claim C1, witness for the amended theorem at a concrete input. -/
theorem c1_wrapper_exception_witness :
    (run_wrapper
      {initialState with
        currentProxy := some ⟨0, true⟩,
        dispatchWrapper := some (DW.userW 5)}
      (Sum.inr (Exn.pyExn 7)) false).out = some (Exn.pyExn 7) := by
  have h := c1_wrapper_exception
    {initialState with currentProxy := some ⟨0, true⟩}
    {initialState with
      currentProxy := some ⟨0, true⟩,
      dispatchWrapper := some (DW.userW 5)}
    ⟨5, ⟨1, true, true⟩⟩ (Exn.pyExn 7) false (by decide)
  exact (h.2.2.2.1 (by decide) rfl).1

/-- Helper: fields of `createNew` when subprocess construction succeeds:
a fresh server (numbered by the counter) and its proxy are stored
together, and the server is returned after `listen()`. -/
theorem createNew_construct (env : CallEnv) (modal : Bool) (st : PState)
    (hc : env.constructOk = true) :
    (createNew env modal st).post.currentServer = some ⟨st.nextServerId, modal⟩ ∧
    (createNew env modal st).post.currentProxy
      = some ⟨st.nextServerId, env.headless⟩ ∧
    (createNew env modal st).post.nextServerId = st.nextServerId + 1 ∧
    (createNew env modal st).ret = some ⟨st.nextServerId, modal⟩ ∧
    (createNew env modal st).raised = false := by
  unfold createNew
  dsimp only
  cases hh : env.headless <;> simp [hc, hh]

/-- Helper: fields of `createNew` when subprocess construction fails: the
traceback is printed, `on_shown` is invoked, `None` is returned, and the
registry slots and counter are untouched. -/
theorem createNew_fail (env : CallEnv) (modal : Bool) (st : PState)
    (hc : env.constructOk = false) :
    (createNew env modal st).post.currentServer = st.currentServer ∧
    (createNew env modal st).post.currentProxy = st.currentProxy ∧
    (createNew env modal st).post.nextServerId = st.nextServerId ∧
    (createNew env modal st).post.installed = st.installed ∧
    (createNew env modal st).ret = none ∧
    (createNew env modal st).raised = false ∧
    (createNew env modal st).shownCalled = true ∧
    (createNew env modal st).printedConstructError = true := by
  unfold createNew on_shown
  dsimp only
  cases hh : env.headless <;> simp [hc, hh]

/-- Claim C3, counterexample.  With a registered server whose delegation
raises `IOError`, `show()` does not treat the request as a no-op: after
popping the stale entry it falls through (host.py line 121 onward) and
constructs a fresh session in the same call — a second server is created
(the counter reaches 2), registered, and returned.  The caller does not
have to call `show()` again. -/
theorem c3_counterexample :
    (run [Op.opShow ⟨fun _ => ProbeResult.notThisHost, none, true, true⟩ true]
      initialState).currentServer.isSome = true ∧
    (show' ⟨fun _ => ProbeResult.notThisHost, some PFail.ioError, true, true⟩
      true
      (run [Op.opShow ⟨fun _ => ProbeResult.notThisHost, none, true, true⟩ true]
        initialState)).post.currentServer ≠ none ∧
    (show' ⟨fun _ => ProbeResult.notThisHost, some PFail.ioError, true, true⟩
      true
      (run [Op.opShow ⟨fun _ => ProbeResult.notThisHost, none, true, true⟩ true]
        initialState)).ret ≠ none ∧
    (show' ⟨fun _ => ProbeResult.notThisHost, some PFail.ioError, true, true⟩
      true
      (run [Op.opShow ⟨fun _ => ProbeResult.notThisHost, none, true, true⟩ true]
        initialState)).post.nextServerId = 2 := by
  decide

/-- Claim C3, amended: when delegation to the registered session raises
an I/O failure or a missing-key condition, the stale `currentServer`
entry is removed and the call returns without raising — for `publish`
and `validate` the request is then a no-op; `show`, however, does not
stop there: it proceeds to construct and register a fresh session within
the same call (when construction succeeds), so the caller need not call
`show()` again. -/
theorem c3_stale_recovery (st : PState) (env : CallEnv) (modal : Bool)
    (s : Server)
    (hs : st.currentServer = some s)
    (hfail : st.currentProxy = none ∨ env.proxyFails.isSome = true)
    (hinst : st.installed = true)
    (hc : env.constructOk = true) :
    publish env.proxyFails st = {st with currentServer := none} ∧
    validate env.proxyFails st = {st with currentServer := none} ∧
    (show' env modal st).raised = false ∧
    (show' env modal st).post.currentServer = some ⟨st.nextServerId, modal⟩ ∧
    (show' env modal st).post.currentProxy
      = some ⟨st.nextServerId, env.headless⟩ ∧
    (show' env modal st).post.nextServerId = st.nextServerId + 1 := by
  have hcond : (st.currentProxy.isSome && env.proxyFails.isNone) = false := by
    rcases hfail with h | h
    · simp [h]
    · rcases Option.isSome_iff_exists.mp h with ⟨f, hf⟩
      simp [hf]
  obtain ⟨ins, cs, cp, dw, cbs, cl, wt, ad, nid⟩ := st
  dsimp only at hs hinst hcond ⊢
  subst hs
  subst hinst
  have hshow : show' env modal ⟨true, some s, cp, dw, cbs, cl, wt, ad, nid⟩
      = createNew env modal ⟨true, none, cp, dw, cbs, cl, wt, ad, nid⟩ := by
    unfold show' showCore
    rw [if_pos rfl]
    dsimp only
    rw [if_neg (by simp [hcond])]
  obtain ⟨k1, k2, k3, -, k5⟩ := createNew_construct env modal
    ⟨true, none, cp, dw, cbs, cl, wt, ad, nid⟩ hc
  refine ⟨?_, ?_, ?_, ?_, ?_, ?_⟩
  · unfold publish
    dsimp only
    rw [if_neg (by simp [hcond])]
  · unfold validate
    dsimp only
    rw [if_neg (by simp [hcond])]
  · rw [hshow]
    exact k5
  · rw [hshow]
    exact k1
  · rw [hshow]
    exact k2
  · rw [hshow]
    exact k3

/-- Claim C3, witness for the amended theorem: concrete stale state with
an `IOError`-raising proxy; `publish` clears the entry, `show` restarts
with a fresh server in the same call. -/
theorem c3_stale_recovery_witness :
    publish (some PFail.ioError)
      ⟨true, some ⟨0, false⟩, some ⟨0, true⟩, none, [], none, none, [], 1⟩
      = ⟨true, none, some ⟨0, true⟩, none, [], none, none, [], 1⟩ ∧
    (show' ⟨fun _ => ProbeResult.notThisHost, some PFail.ioError, true, true⟩
      true
      ⟨true, some ⟨0, false⟩, some ⟨0, true⟩, none, [], none, none, [], 1⟩
      ).post.currentServer = some ⟨1, true⟩ := by
  have h := c3_stale_recovery
    ⟨true, some ⟨0, false⟩, some ⟨0, true⟩, none, [], none, none, [], 1⟩
    ⟨fun _ => ProbeResult.notThisHost, some PFail.ioError, true, true⟩
    true ⟨0, false⟩ rfl (Or.inr rfl) rfl rfl
  exact ⟨h.1, h.2.2.2.1⟩

/-- Claim C4, counterexample.  A proxy can linger in the registry with no
server (stale recovery pops only `currentServer`): starting from the
initial state, a successful `show`, then a `publish` whose delegation
raises `IOError`, leaves `currentServer` empty but `currentProxy` set.
A further `show` whose `Server` construction fails returns `None`
without registering anything new — but the registry still holds the old
proxy, contradicting the claim that it holds no proxy after the call. -/
theorem c4_counterexample :
    (publish (some PFail.ioError)
      (show' ⟨fun _ => ProbeResult.notThisHost, none, true, true⟩ true
        initialState).post).currentServer = none ∧
    (show' ⟨fun _ => ProbeResult.notThisHost, none, false, true⟩ true
      (publish (some PFail.ioError)
        (show' ⟨fun _ => ProbeResult.notThisHost, none, true, true⟩ true
          initialState).post)).ret = none ∧
    (show' ⟨fun _ => ProbeResult.notThisHost, none, false, true⟩ true
      (publish (some PFail.ioError)
        (show' ⟨fun _ => ProbeResult.notThisHost, none, true, true⟩ true
          initialState).post)).post.currentProxy ≠ none := by
  decide

/-- Claim C4, amended: if `show()` is called with no registered server
and constructing the `Server` fails, the failure is printed, the "shown"
completion callback is invoked immediately, and `show()` returns without
raising and without registering anything: `currentServer` is still
absent, the proxy slot is exactly what it was before the call (in
particular still absent if it was absent), and no server was
constructed. -/
theorem c4_construct_failure (st : PState) (env : CallEnv) (modal : Bool)
    (hinst : st.installed = true)
    (hs : st.currentServer = none)
    (hc : env.constructOk = false) :
    (show' env modal st).raised = false ∧
    (show' env modal st).ret = none ∧
    (show' env modal st).shownCalled = true ∧
    (show' env modal st).printedConstructError = true ∧
    (show' env modal st).post.currentServer = none ∧
    (show' env modal st).post.currentProxy = st.currentProxy ∧
    (show' env modal st).post.nextServerId = st.nextServerId := by
  obtain ⟨ins, cs, cp, dw, cbs, cl, wt, ad, nid⟩ := st
  dsimp only at hinst hs ⊢
  subst hinst
  subst hs
  have hshow : show' env modal ⟨true, none, cp, dw, cbs, cl, wt, ad, nid⟩
      = createNew env modal ⟨true, none, cp, dw, cbs, cl, wt, ad, nid⟩ := by
    unfold show' showCore
    rw [if_pos rfl]
  obtain ⟨k1, k2, k3, -, k5, k6, k7, k8⟩ := createNew_fail env modal
    ⟨true, none, cp, dw, cbs, cl, wt, ad, nid⟩ hc
  rw [hshow]
  exact ⟨k6, k5, k7, k8, k1, k2, k3⟩

/-- Claim C4, witness for the amended theorem at a concrete state with an
empty registry. -/
theorem c4_construct_failure_witness :
    (show' ⟨fun _ => ProbeResult.notThisHost, none, false, true⟩ true
      ⟨true, none, none, none, [], none, none, [], 0⟩).shownCalled = true ∧
    (show' ⟨fun _ => ProbeResult.notThisHost, none, false, true⟩ true
      ⟨true, none, none, none, [], none, none, [], 0⟩).post.currentServer
      = none := by
  have h := c4_construct_failure
    ⟨true, none, none, none, [], none, none, [], 0⟩
    ⟨fun _ => ProbeResult.notThisHost, none, false, true⟩ true rfl rfl rfl
  exact ⟨h.2.2.1, h.2.2.2.2.1⟩

/-- Claim C8: `show()` with a registered server whose proxy delegation
succeeds creates no second server: it sets the server's modality to the
requested value, delegates `proxy.update`/`proxy.show` (the success
branch of the embedded delegation), returns the existing server, and
leaves every other registry entry — proxy included — unchanged. -/
theorem c8_reuse_existing (st : PState) (env : CallEnv) (modal : Bool)
    (s : Server) (p : Proxy)
    (hinst : st.installed = true)
    (hs : st.currentServer = some s)
    (hp : st.currentProxy = some p)
    (hok : env.proxyFails = none) :
    show' env modal st =
      ⟨{st with currentServer := some ⟨s.sid, modal⟩},
        some ⟨s.sid, modal⟩, false, false, false⟩ := by
  obtain ⟨ins, cs, cp, dw, cbs, cl, wt, ad, nid⟩ := st
  obtain ⟨sid, sm⟩ := s
  dsimp only at hinst hs hp ⊢
  subst hinst
  subst hs
  subst hp
  unfold show' showCore
  rw [if_pos rfl]
  dsimp only
  rw [if_pos (by simp [hok])]

/-- Claim C8, witness: concrete healthy session, `modal` flipped to
`true`; the same server (id 0) is returned, the counter stays at 1. -/
theorem c8_reuse_existing_witness :
    show' ⟨fun _ => ProbeResult.notThisHost, none, true, false⟩ true
      ⟨true, some ⟨0, false⟩, some ⟨0, true⟩, none, [], none, none, [], 1⟩ =
      ⟨⟨true, some ⟨0, true⟩, some ⟨0, true⟩, none, [], none, none, [], 1⟩,
        some ⟨0, true⟩, false, false, false⟩ :=
  c8_reuse_existing
    ⟨true, some ⟨0, false⟩, some ⟨0, true⟩, none, [], none, none, [], 1⟩
    ⟨fun _ => ProbeResult.notThisHost, none, true, false⟩ true
    ⟨0, false⟩ ⟨0, true⟩ rfl rfl rfl rfl

/-- Claim C5: registration with a wrapper whose signature is not exactly
one named argument plus `*args` and `**kwargs` raises the signature
mismatch `TypeError` and leaves the registered wrapper unchanged; a
conforming wrapper is installed. -/
theorem c5_signature_validation (st : PState) (w : WrapperVal) :
    (¬(w.spec.args = 1 ∧ w.spec.varargs = true ∧ w.spec.keywords = true) →
      register_dispatch_wrapper w st = (st, some Exn.typeError)) ∧
    ((w.spec.args = 1 ∧ w.spec.varargs = true ∧ w.spec.keywords = true) →
      register_dispatch_wrapper w st =
        ({st with dispatchWrapper := some (DW.userW w.wid)}, none)) := by
  constructor
  · intro h
    unfold register_dispatch_wrapper
    split
    · rfl
    · exfalso
      apply h
      rename_i hc
      simp at hc
      exact ⟨hc.1.1, hc.1.2, hc.2⟩
  · intro h
    unfold register_dispatch_wrapper
    split
    · rename_i hc
      obtain ⟨h1, h2, h3⟩ := h
      simp [h1, h2, h3] at hc
    · rfl

/-- Claim C5, witness: a two-argument wrapper is rejected with the state
unchanged; a conforming one is installed. -/
theorem c5_signature_validation_witness :
    register_dispatch_wrapper ⟨3, ⟨2, true, true⟩⟩ initialState =
      (initialState, some Exn.typeError) ∧
    register_dispatch_wrapper ⟨4, ⟨1, true, true⟩⟩ initialState =
      ({initialState with dispatchWrapper := some (DW.userW 4)}, none) :=
  ⟨(c5_signature_validation initialState ⟨3, ⟨2, true, true⟩⟩).1 (by decide),
   (c5_signature_validation initialState ⟨4, ⟨1, true, true⟩⟩).2 (by decide)⟩

/-- Claim C9: `publish` and `validate` with no registered server return
without raising and leave the state unchanged, for any behaviour of the
proxy environment. -/
theorem c9_publish_validate_noop (st : PState) (pf pf2 : Option PFail)
    (h : st.currentServer = none) :
    publish pf st = st ∧ validate pf2 st = st := by
  constructor
  · unfold publish
    rw [h]
  · unfold validate
    rw [h]

/-- Claim C9, witness at the initial state. -/
theorem c9_publish_validate_noop_witness :
    publish (some PFail.ioError) initialState = initialState ∧
    validate none initialState = initialState :=
  c9_publish_validate_noop initialState (some PFail.ioError) none rfl

/-- Helper: callback counts are additive over registry concatenation. -/
theorem countCB_append (l1 l2 : List CB) (c : CB) :
    countCB (l1 ++ l2) c = countCB l1 c + countCB l2 c := by
  induction l1 with
  | nil => simp [countCB]
  | cons x t ih => simp [countCB, ih, Nat.add_assoc]

/-- Helper: deregistration never increases a callback count. -/
theorem countCB_eraseFirst_le (l : List CB) (c d : CB) :
    countCB (eraseFirst l c) d ≤ countCB l d := by
  induction l with
  | nil => exact Nat.le_refl 0
  | cons x t ih =>
    simp only [eraseFirst, countCB]
    by_cases hx : x = c
    · rw [if_pos hx]
      exact Nat.le_add_left _ _
    · rw [if_neg hx]
      simp only [countCB]
      exact Nat.add_le_add_left ih _

/-- Helper: deregistering one callback leaves the counts of the other
callbacks unchanged. -/
theorem countCB_eraseFirst_ne (l : List CB) (c d : CB) (h : c ≠ d) :
    countCB (eraseFirst l c) d = countCB l d := by
  induction l with
  | nil => rfl
  | cons x t ih =>
    simp only [eraseFirst, countCB]
    by_cases hx : x = c
    · subst hx
      rw [if_pos rfl, if_neg h]
      simp
    · rw [if_neg hx]
      simp only [countCB]
      rw [ih]

/-- Helper: deregistering a callback that occurs only in the freshly
appended tail removes exactly that occurrence. -/
theorem eraseFirst_append_of_count_zero (l : List CB) (c : CB)
    (h : countCB l c = 0) (l2 : List CB) :
    eraseFirst (l ++ c :: l2) c = l ++ l2 := by
  induction l with
  | nil => simp [eraseFirst]
  | cons x t ih =>
    simp only [countCB] at h
    by_cases hx : x = c
    · rw [if_pos hx] at h
      omega
    · rw [if_neg hx] at h
      have h' : countCB t c = 0 := by omega
      have hstep : eraseFirst ((x :: t) ++ c :: l2) c
          = x :: eraseFirst (t ++ c :: l2) c := by
        show (if x = c then t ++ c :: l2
          else x :: eraseFirst (t ++ c :: l2) c) = _
        rw [if_neg hx]
      rw [hstep, ih h']
      rfl

/-- Helper: `install` appends the two bridge callbacks to whatever the
(possible) preceding `uninstall` left in the registry. -/
theorem install_callbacks_eq (probe : Host → ProbeResult) (st : PState) :
    (install probe st).1.callbacks =
      (if st.installed then uninstall st else st).callbacks
        ++ [CB.instanceToggled, CB.pluginToggled] := by
  unfold install install_host
  dsimp only
  obtain ⟨-, -, -, h4, -⟩ := installHostAux_proj probe hostOrder
    (install_callbacks (if st.installed then uninstall st else st))
  cases ho : (installHostAux probe hostOrder
      (install_callbacks (if st.installed then uninstall st else st))).2 with
  | done oh =>
    simp only [ho]
    exact h4
  | raised =>
    simp only [ho]
    exact h4

/-- Helper: when `install` completes without `install_host` raising, the
installed flag is set. -/
theorem install_installed (probe : Host → ProbeResult) (st : PState)
    (h : (install probe st).2 = true) :
    (install probe st).1.installed = true := by
  unfold install install_host at h ⊢
  dsimp only at h ⊢
  cases ho : (installHostAux probe hostOrder
      (install_callbacks (if st.installed then uninstall st else st))).2 with
  | done oh =>
    simp only [ho]
  | raised =>
    simp only [ho] at h
    exact Bool.noConfusion h

/-- Helper: the adapter-chain loop is determined by the first probe in
list order that is not an `ImportError` miss. -/
theorem installHostAux_firstDetected (probe : Host → ProbeResult)
    (l : List Host) (st : PState) :
    (firstDetected probe l = none →
      installHostAux probe l st = (st, HostOut.done none)) ∧
    (∀ h, firstDetected probe l = some (h, ProbeResult.success) →
      installHostAux probe l st = (applyInstall h st, HostOut.done (some h))) ∧
    (∀ h, firstDetected probe l = some (h, ProbeResult.failure) →
      installHostAux probe l st = (st, HostOut.raised)) := by
  induction l generalizing st with
  | nil =>
    refine ⟨fun _ => rfl, fun h hx => ?_, fun h hx => ?_⟩
    · exact Option.noConfusion hx
    · exact Option.noConfusion hx
  | cons a t ih =>
    simp only [firstDetected, installHostAux]
    cases hp : probe a
    · exact ih st
    · refine ⟨fun hx => Option.noConfusion hx, fun h hx => ?_, fun h hx => ?_⟩
      · simp only [Option.some.injEq, Prod.mk.injEq] at hx
        obtain ⟨rfl, -⟩ := hx
        rfl
      · simp at hx
    · refine ⟨fun hx => Option.noConfusion hx, fun h hx => ?_, fun h hx => ?_⟩
      · simp at hx
      · rfl

/-- Helper: one pass of the adapter chain grows the record of completed
adapters by at most one entry. -/
theorem installHostAux_adapters_len (probe : Host → ProbeResult)
    (l : List Host) (st : PState) :
    (installHostAux probe l st).1.adapters.length
      ≤ st.adapters.length + 1 := by
  induction l generalizing st with
  | nil => exact Nat.le_succ _
  | cons a t ih =>
    simp only [installHostAux]
    cases hp : probe a
    · exact ih st
    · have ha : (applyInstall a st).adapters = st.adapters ++ [a] := by
        unfold applyInstall
        dsimp only
        split_ifs <;> rfl
      simp [ha]
    · exact Nat.le_succ _

/-- Claim C6: `install_host` evaluates the installers in the fixed order
Maya, Houdini, Nuke, NukeAssist, Hiero, NukeStudio (`hostOrder`); an
`ImportError` miss moves to the next candidate, any other exception
propagates with no adapter installed, the chain stops at the first
success, and at most one adapter records an install per call. -/
theorem c6_adapter_chain (probe : Host → ProbeResult) (st : PState) :
    (firstDetected probe hostOrder = none →
      install_host probe st = (st, HostOut.done none)) ∧
    (∀ h, firstDetected probe hostOrder = some (h, ProbeResult.success) →
      install_host probe st = (applyInstall h st, HostOut.done (some h))) ∧
    (∀ h, firstDetected probe hostOrder = some (h, ProbeResult.failure) →
      install_host probe st = (st, HostOut.raised)) ∧
    (install_host probe st).1.adapters.length ≤ st.adapters.length + 1 := by
  obtain ⟨g1, g2, g3⟩ := installHostAux_firstDetected probe hostOrder st
  exact ⟨g1, g2, g3, installHostAux_adapters_len probe hostOrder st⟩

/-- Claim C6, witness: with Houdini and Nuke both detectable, only
Houdini — first of the two in priority order — installs; exactly one
adapter is recorded. -/
theorem c6_adapter_chain_witness :
    install_host
      (fun h => match h with
        | Host.houdini => ProbeResult.success
        | Host.nuke => ProbeResult.success
        | _ => ProbeResult.notThisHost) initialState
      = (applyInstall Host.houdini initialState,
         HostOut.done (some Host.houdini)) :=
  (c6_adapter_chain
    (fun h => match h with
      | Host.houdini => ProbeResult.success
      | Host.nuke => ProbeResult.success
      | _ => ProbeResult.notThisHost) initialState).2.1
    Host.houdini (by decide)

/-- Claim C7: starting from a state with no bridge callbacks registered,
two successive `install` calls (the first completing normally) leave
each bridge callback registered exactly once: the second call first
uninstalls, so registrations do not accumulate. -/
theorem c7_install_idempotent (st : PState) (p1 p2 : Host → ProbeResult)
    (h1 : countCB st.callbacks CB.instanceToggled = 0)
    (h2 : countCB st.callbacks CB.pluginToggled = 0)
    (hok : (install p1 st).2 = true) :
    countCB (install p2 (install p1 st).1).1.callbacks
      CB.instanceToggled = 1 ∧
    countCB (install p2 (install p1 st).1).1.callbacks
      CB.pluginToggled = 1 := by
  have hm1 : countCB (if st.installed then uninstall st else st).callbacks
      CB.instanceToggled = 0 := by
    cases hi : st.installed
    · simpa using h1
    · have a1 := countCB_eraseFirst_le
        (eraseFirst st.callbacks CB.instanceToggled) CB.pluginToggled
        CB.instanceToggled
      have a2 := countCB_eraseFirst_le st.callbacks CB.instanceToggled
        CB.instanceToggled
      simp only [if_pos]
      unfold uninstall uninstall_callbacks
      dsimp only
      omega
  have hm2 : countCB (if st.installed then uninstall st else st).callbacks
      CB.pluginToggled = 0 := by
    cases hi : st.installed
    · simpa using h2
    · have a1 := countCB_eraseFirst_le
        (eraseFirst st.callbacks CB.instanceToggled) CB.pluginToggled
        CB.pluginToggled
      have a2 := countCB_eraseFirst_le st.callbacks CB.instanceToggled
        CB.pluginToggled
      simp only [if_pos]
      unfold uninstall uninstall_callbacks
      dsimp only
      omega
  have e1 : (install p1 st).1.callbacks
      = (if st.installed then uninstall st else st).callbacks
        ++ [CB.instanceToggled, CB.pluginToggled] := install_callbacks_eq p1 st
  have hi1 : (install p1 st).1.installed = true := install_installed p1 st hok
  have e2 : (install p2 (install p1 st).1).1.callbacks
      = (uninstall (install p1 st).1).callbacks
        ++ [CB.instanceToggled, CB.pluginToggled] := by
    have e := install_callbacks_eq p2 (install p1 st).1
    rwa [if_pos hi1] at e
  have e3 : (uninstall (install p1 st).1).callbacks
      = (if st.installed then uninstall st else st).callbacks ++ [] := by
    have hu : (uninstall (install p1 st).1).callbacks
        = eraseFirst (eraseFirst ((install p1 st).1.callbacks)
            CB.instanceToggled) CB.pluginToggled := rfl
    rw [hu, e1,
      eraseFirst_append_of_count_zero _ _ hm1 [CB.pluginToggled],
      eraseFirst_append_of_count_zero _ _ hm2 []]
  rw [e2, e3]
  constructor
  · rw [countCB_append, countCB_append, hm1]
    simp [countCB]
  · rw [countCB_append, countCB_append, hm2]
    simp [countCB]

/-- Claim C7, witness: two installs from the initial state with no host
detected leave each bridge callback registered exactly once. -/
theorem c7_install_idempotent_witness :
    countCB (install (fun _ => ProbeResult.notThisHost)
      (install (fun _ => ProbeResult.notThisHost) initialState).1).1.callbacks
      CB.instanceToggled = 1 ∧
    countCB (install (fun _ => ProbeResult.notThisHost)
      (install (fun _ => ProbeResult.notThisHost) initialState).1).1.callbacks
      CB.pluginToggled = 1 :=
  c7_install_idempotent initialState
    (fun _ => ProbeResult.notThisHost) (fun _ => ProbeResult.notThisHost)
    rfl rfl (by decide)

/-- Helper: the session-construction tail of `show` never changes the
installed flag nor the counts of the two bridge callbacks (it only
registers/deregisters the transient `pyblishQmlShown` callback). -/
theorem createNew_keeps (env : CallEnv) (modal : Bool) (st : PState)
    (c : CB) (hc : c ≠ CB.pyblishQmlShown) :
    countCB (createNew env modal st).post.callbacks c
      = countCB st.callbacks c ∧
    (createNew env modal st).post.installed = st.installed := by
  unfold createNew on_shown
  dsimp only
  have hnc : CB.pyblishQmlShown ≠ c := Ne.symm hc
  cases hh : env.headless <;> cases hk : env.constructOk <;>
    simp [hh, hk, countCB_append, countCB, hnc,
      countCB_eraseFirst_ne _ _ _ hnc]

/-- Helper: the post-install body of `show` never changes the installed
flag nor the counts of the two bridge callbacks. -/
theorem showCore_keeps (env : CallEnv) (modal : Bool) (st : PState)
    (c : CB) (hc : c ≠ CB.pyblishQmlShown) :
    countCB (showCore env modal st).post.callbacks c
      = countCB st.callbacks c ∧
    (showCore env modal st).post.installed = st.installed := by
  unfold showCore
  cases hs : st.currentServer with
  | none => exact createNew_keeps env modal st c hc
  | some s0 =>
    dsimp only
    by_cases hcc :
        (({st with currentServer := some {s0 with modal := modal}}).currentProxy.isSome
          && env.proxyFails.isNone) = true
    · rw [if_pos hcc]
      exact ⟨rfl, rfl⟩
    · rw [if_neg hcc]
      exact createNew_keeps env modal _ c hc

/-- Claim C10: `show()` auto-installs: whenever a `show` call completes
without an exception, the installed flag is set afterwards; and when the
bridge was not installed beforehand, the call ran `install()` first,
registering each of the two bridge callbacks exactly once more before
any server handling. -/
theorem c10_show_autoinstalls (env : CallEnv) (modal : Bool) (st : PState)
    (h : (show' env modal st).raised = false) :
    (show' env modal st).post.installed = true ∧
    (st.installed = false →
      countCB (show' env modal st).post.callbacks CB.instanceToggled
        = countCB st.callbacks CB.instanceToggled + 1 ∧
      countCB (show' env modal st).post.callbacks CB.pluginToggled
        = countCB st.callbacks CB.pluginToggled + 1) := by
  by_cases hi : st.installed = true
  · constructor
    · unfold show'
      rw [if_pos hi]
      exact ((showCore_keeps env modal st CB.instanceToggled
        (by decide)).2).trans hi
    · intro hd
      rw [hi] at hd
      exact Bool.noConfusion hd
  · rw [Bool.not_eq_true] at hi
    by_cases hf : (install env.probe st).2 = false
    · exfalso
      have hr : (show' env modal st).raised = true := by
        unfold show'
        rw [if_neg (by simp [hi]), if_pos hf]
      rw [hr] at h
      exact Bool.noConfusion h
    · have hok : (install env.probe st).2 = true := by
        cases hb : (install env.probe st).2
        · exact absurd hb hf
        · rfl
      have e1 : (install env.probe st).1.callbacks
          = st.callbacks ++ [CB.instanceToggled, CB.pluginToggled] := by
        have e := install_callbacks_eq env.probe st
        rw [hi] at e
        simpa using e
      unfold show'
      rw [if_neg (by simp [hi]), if_neg hf]
      refine ⟨?_, fun _ => ⟨?_, ?_⟩⟩
      · exact ((showCore_keeps env modal _ CB.instanceToggled
          (by decide)).2).trans (install_installed env.probe st hok)
      · rw [(showCore_keeps env modal _ CB.instanceToggled (by decide)).1,
          e1, countCB_append]
        simp [countCB]
      · rw [(showCore_keeps env modal _ CB.pluginToggled (by decide)).1,
          e1, countCB_append]
        simp [countCB]

/-- Claim C10, witness: a `show` from the fresh (uninstalled) state sets
the installed flag and registers the bridge callbacks. -/
theorem c10_show_autoinstalls_witness :
    (show' ⟨fun _ => ProbeResult.notThisHost, none, true, true⟩ true
      initialState).post.installed = true ∧
    countCB (show' ⟨fun _ => ProbeResult.notThisHost, none, true, true⟩ true
      initialState).post.callbacks CB.instanceToggled
      = countCB initialState.callbacks CB.instanceToggled + 1 := by
  have h := c10_show_autoinstalls
    ⟨fun _ => ProbeResult.notThisHost, none, true, true⟩ true initialState
    (by decide)
  exact ⟨h.1, (h.2 rfl).1⟩

end PyblishQml
